import Mathlib

/-!
Verification of the steam-methane-reforming Gibbs-reactor tutorial flowsheet
(`gibbs_reactor_src.ipynb`).  The notebook is a linear Pyomo/IDAES script:
it builds a flowsheet of unit models, connects them with arcs, adds cost
expressions, fixes specification variables to obtain a square model, solves,
then unfixes two variables and solves a small optimization.  We embed the
script as a list of declarative statements acting on a model state that
tracks variable/constraint counts, fixed values, bounds and objectives,
together with the algebraic expressions the notebook declares.
-/

namespace Gibbs

/-- Sense of a Pyomo objective.  `Objective(expr=e)` with no `sense` argument
minimizes `e` (Pyomo's documented default). -/
inductive ObjSense where
  | minimize
  | maximize
  deriving DecidableEq, Repr

/-- Termination condition reported by the solver, as compared by the
notebook's `assert results.solver.termination_condition ==
TerminationCondition.optimal` cells. -/
inductive TermCond where
  | optimal
  | infeasible
  | maxIterations
  | unknown
  deriving DecidableEq, Repr

/-- One top-level statement of the notebook script.  Each constructor mirrors
one kind of call the notebook makes; `tryBlock` marks a Python
`try/except` handler (the notebook contains none). -/
inductive Stmt where
  | addUnit (name : String) (netDof : Nat)
  | addArc (name src dst : String)
  | expandArcs
  | addExpression (name : String)
  | addVar (name : String) (lb ub : Option ℚ)
  | addConstraint (name : String)
  | addObjective (name : String) (sense : ObjSense)
  | fix (name : String) (v : ℚ)
  | unfix (name : String)
  | setlb (name : String) (v : ℚ)
  | setub (name : String) (v : ℚ)
  | initializeUnit (name : String)
  | propagate (arcName : String)
  | solve
  | assertTerminationOptimal
  | assertApprox (desc : String)
  | display (desc : String)
  | tryBlock
  deriving DecidableEq, Repr

/-- Insert or overwrite the binding of key `k` in an association list. -/
def setAssoc (l : List (String × ℚ)) (k : String) (v : ℚ) : List (String × ℚ) :=
  if l.any (fun p => p.1 == k) then
    l.map (fun p => if p.1 == k then (k, v) else p)
  else
    l ++ [(k, v)]

/-- Remove the binding of key `k` from an association list. -/
def removeAssoc (l : List (String × ℚ)) (k : String) : List (String × ℚ) :=
  l.filter (fun p => p.1 != k)

/-- Model state: net degrees of freedom contributed by the IDAES unit models
(variables minus equations, after arc expansion), the count of variables and
constraints added by the notebook itself, the fixed variables with their
values, the lower/upper bounds set at notebook level, and the declared
objectives. -/
structure FsState where
  baseDof : Int
  extraVars : Nat
  extraCons : Nat
  fixedVals : List (String × ℚ)
  lbs : List (String × ℚ)
  ubs : List (String × ℚ)
  objectives : List (String × ObjSense)
  deriving DecidableEq, Repr

/-- Empty model, before any construction statement runs. -/
def initState : FsState :=
  { baseDof := 0, extraVars := 0, extraCons := 0,
    fixedVals := [], lbs := [], ubs := [], objectives := [] }

/-- Effect of a single statement on the model state.  `fix` on an already
fixed variable only updates its value; `unfix` removes the variable from the
fixed set; expressions, arcs, initialization, solves, asserts and prints do
not change the specification ledger. -/
def stepStmt (s : FsState) : Stmt → FsState
  | .addUnit _ d => { s with baseDof := s.baseDof + d }
  | .addArc _ _ _ => s
  | .expandArcs => s
  | .addExpression _ => s
  | .addVar n lb ub =>
      { s with
        extraVars := s.extraVars + 1,
        lbs := match lb with | some v => setAssoc s.lbs n v | none => s.lbs,
        ubs := match ub with | some v => setAssoc s.ubs n v | none => s.ubs }
  | .addConstraint _ => { s with extraCons := s.extraCons + 1 }
  | .addObjective n sense => { s with objectives := s.objectives ++ [(n, sense)] }
  | .fix n v => { s with fixedVals := setAssoc s.fixedVals n v }
  | .unfix n => { s with fixedVals := removeAssoc s.fixedVals n }
  | .setlb n v => { s with lbs := setAssoc s.lbs n v }
  | .setub n v => { s with ubs := setAssoc s.ubs n v }
  | .initializeUnit _ => s
  | .propagate _ => s
  | .solve => s
  | .assertTerminationOptimal => s
  | .assertApprox _ => s
  | .display _ => s
  | .tryBlock => s

/-- Run a list of statements from a starting state. -/
def runScript (s : FsState) (l : List Stmt) : FsState :=
  l.foldl stepStmt s

/-- Degrees of freedom of the model: unfixed variables minus equality
constraints.  Modelled from the spec: IDAES `degrees_of_freedom` itself is
not part of this repository; the notebook documents the net contribution of
each unit block (each feed stream 8, mixer 0, compressor 2, heater 1,
reactor 1) and asserts the resulting counts. -/
def dof (s : FsState) : Int :=
  s.baseDof + s.extraVars - s.extraCons - s.fixedVals.length

/-- Construction stage of the notebook: the seven unit models with their net
degree-of-freedom contributions as documented in the notebook markdown, the
six arcs `s01`..`s06`, and the `network.expand_arcs` transformation (which
only replaces port connections by equalities already accounted for in the
per-unit net contributions). -/
def stageUnitsArcs : List Stmt :=
  [ .addUnit "fs.CH4" 8,
    .addUnit "fs.H2O" 8,
    .addUnit "fs.PROD" 0,
    .addUnit "fs.M101" 0,
    .addUnit "fs.H101" 1,
    .addUnit "fs.C101" 2,
    .addUnit "fs.R101" 1,
    .addArc "s01" "fs.CH4.outlet" "fs.M101.methane_feed",
    .addArc "s02" "fs.H2O.outlet" "fs.M101.steam_feed",
    .addArc "s03" "fs.M101.outlet" "fs.C101.inlet",
    .addArc "s04" "fs.C101.outlet" "fs.H101.inlet",
    .addArc "s05" "fs.H101.outlet" "fs.R101.inlet",
    .addArc "s06" "fs.R101.outlet" "fs.PROD.inlet",
    .expandArcs ]

/-- Expression stage: `hyd_prod`, the three utility costs and
`operating_cost`, all Pyomo `Expression` objects. -/
def stageExpressions : List Stmt :=
  [ .addExpression "fs.hyd_prod",
    .addExpression "fs.cooling_cost",
    .addExpression "fs.heating_cost",
    .addExpression "fs.compression_cost",
    .addExpression "fs.operating_cost" ]

/-- Construction stage up to the first degrees-of-freedom assertion. -/
def stageConstruct : List Stmt := stageUnitsArcs ++ stageExpressions

/-- Specification stage: fix the two feed streams (five mole fractions, molar
flow, temperature, pressure each), the compressor outlet pressure (2 bar) and
isentropic efficiency, the heater outlet temperature, then declare the
conversion variable with bounds (0, 1), its defining constraint, and fix the
conversion at 0.80. -/
def stageFix : List Stmt :=
  [ .fix "fs.CH4.outlet.mole_frac_comp[CH4]" 1,
    .fix "fs.CH4.outlet.mole_frac_comp[H2O]" 0.00001,
    .fix "fs.CH4.outlet.mole_frac_comp[H2]" 0.00001,
    .fix "fs.CH4.outlet.mole_frac_comp[CO]" 0.00001,
    .fix "fs.CH4.outlet.mole_frac_comp[CO2]" 0.00001,
    .fix "fs.CH4.outlet.flow_mol" 75,
    .fix "fs.CH4.outlet.temperature" 298.15,
    .fix "fs.CH4.outlet.pressure" 100000,
    .fix "fs.H2O.outlet.mole_frac_comp[CH4]" 0.00001,
    .fix "fs.H2O.outlet.mole_frac_comp[H2O]" 1,
    .fix "fs.H2O.outlet.mole_frac_comp[H2]" 0.00001,
    .fix "fs.H2O.outlet.mole_frac_comp[CO]" 0.00001,
    .fix "fs.H2O.outlet.mole_frac_comp[CO2]" 0.00001,
    .fix "fs.H2O.outlet.flow_mol" 234,
    .fix "fs.H2O.outlet.temperature" 373.15,
    .fix "fs.H2O.outlet.pressure" 100000,
    .fix "fs.C101.outlet.pressure" 200000,
    .fix "fs.C101.efficiency_isentropic" 0.9,
    .fix "fs.H101.outlet.temperature" 500,
    .addVar "fs.R101.conversion" (some 0) (some 1),
    .addConstraint "fs.R101.conv_constraint",
    .fix "fs.R101.conversion" 0.8 ]

/-- Initialization and first (square) solve, with the regression assertions
that follow it. -/
def stageInitSolve : List Stmt :=
  [ .initializeUnit "fs.CH4", .propagate "s01",
    .initializeUnit "fs.H2O", .propagate "s02",
    .initializeUnit "fs.M101", .propagate "s03",
    .initializeUnit "fs.C101", .propagate "s04",
    .initializeUnit "fs.H101", .propagate "s05",
    .initializeUnit "fs.R101", .propagate "s06",
    .initializeUnit "fs.PROD",
    .solve,
    .assertTerminationOptimal,
    .display "operating cost",
    .assertApprox "fs.operating_cost",
    .display "R101 report and conversion",
    .assertApprox "fs.R101.conversion",
    .assertApprox "fs.R101.heat_duty",
    .assertApprox "fs.R101.outlet.temperature" ]

/-- Optimization setup: declare the objective on the operating cost, re-fix
the conversion at 0.90, unfix the compressor outlet pressure (calling `setlb`
on it twice, with 1 bar and then 10 bar, and never `setub`), unfix the heater
outlet temperature, bound the heater duty below by 0 and the heater outlet
temperature above by 1000 K. -/
def stageOptSetup : List Stmt :=
  [ .addObjective "fs.operating_cost" .minimize,
    .fix "fs.R101.conversion" 0.9,
    .unfix "fs.C101.outlet.pressure",
    .setlb "fs.C101.outlet.pressure" 100000,
    .setlb "fs.C101.outlet.pressure" 1000000,
    .unfix "fs.H101.outlet.temperature",
    .setlb "fs.H101.heat_duty" 0,
    .setub "fs.H101.outlet.temperature" 1000 ]

/-- Second solve (the optimization) and its regression assertions. -/
def stageOptSolve : List Stmt :=
  [ .solve,
    .assertTerminationOptimal,
    .assertApprox "fs.operating_cost",
    .display "unit reports",
    .display "optimal values",
    .assertApprox "fs.C101.outlet.pressure",
    .assertApprox "fs.C101.outlet.temperature",
    .assertApprox "fs.H101.outlet.temperature",
    .assertApprox "fs.R101.outlet.temperature",
    .assertApprox "fs.hyd_prod",
    .assertApprox "fs.R101.conversion" ]

/-- The whole notebook script, in cell order. -/
def fullScript : List Stmt :=
  stageConstruct ++ stageFix ++ stageInitSolve ++ stageOptSetup ++ stageOptSolve

/-- State reached just before the second (optimization) solve. -/
def stateBeforeOptSolve : FsState :=
  runScript initState (stageConstruct ++ stageFix ++ stageInitSolve ++ stageOptSetup)

/-- State after the whole script. -/
def finalState : FsState := runScript initState fullScript

/-- Cooling cost expression: `0.212e-7 * m.fs.R101.heat_duty[0]`. -/
def cooling_cost (heatDutyR101 : ℚ) : ℚ := 0.212e-7 * heatDutyR101

/-- Heating cost expression: `2.2e-7 * m.fs.H101.heat_duty[0]`. -/
def heating_cost (heatDutyH101 : ℚ) : ℚ := 2.2e-7 * heatDutyH101

/-- Compression cost expression: `0.12e-5 * m.fs.C101.work_isentropic[0]`. -/
def compression_cost (workC101 : ℚ) : ℚ := 0.12e-5 * workC101

/-- Total operating cost expression:
`3600 * 8000 * (heating_cost + cooling_cost + compression_cost)`, in dollars
per year with 8000 operating hours per year. -/
def operating_cost (heatDutyH101 heatDutyR101 workC101 : ℚ) : ℚ :=
  3600 * 8000 *
    (heating_cost heatDutyH101 + cooling_cost heatDutyR101 +
      compression_cost workC101)

/-- Seconds in a year (365.25 days), used by the unit conversion of
`m.fs.hyd_prod` from kg/s to lb/yr. -/
def secPerYr : ℚ := 3600 * 24 * 365.25

/-- Kilograms in one pound (avoirdupois). -/
def kgPerLb : ℚ := 0.45359237

/-- Conversion factor from kg/s to millions of pounds per year, the
`pyunits.convert(..., to_units=pyunits.Mlb / pyunits.yr)` in the source. -/
def kgPerSecToMlbPerYr : ℚ := secPerYr / kgPerLb / 1000000

/-- Hydrogen production expression `m.fs.hyd_prod`: PROD inlet molar flow
times its H2 mole fraction times the H2 molecular weight (kg/mol), converted
from kg/s to MM lb/year. -/
def hyd_prod (flowMol xH2 mwH2 : ℚ) : ℚ :=
  flowMol * xH2 * mwH2 * kgPerSecToMlbPerYr

/-- Conversion-defining constraint `m.fs.R101.conv_constraint`:
`conversion * F_in * x_CH4_in = F_in * x_CH4_in - F_out * x_CH4_out`. -/
def conv_constraint (conversion fIn xIn fOut xOut : ℚ) : Prop :=
  conversion * fIn * xIn = fIn * xIn - fOut * xOut

/-- Arc declaration: a named connection from a source port to a destination
port. -/
structure ArcDecl where
  name : String
  src : String
  dst : String
  deriving DecidableEq, Repr

/-- The six arcs `m.fs.s01` .. `m.fs.s06` of the flowsheet. -/
def flowsheetArcs : List ArcDecl :=
  [ ⟨"s01", "fs.CH4.outlet", "fs.M101.methane_feed"⟩,
    ⟨"s02", "fs.H2O.outlet", "fs.M101.steam_feed"⟩,
    ⟨"s03", "fs.M101.outlet", "fs.C101.inlet"⟩,
    ⟨"s04", "fs.C101.outlet", "fs.H101.inlet"⟩,
    ⟨"s05", "fs.H101.outlet", "fs.R101.inlet"⟩,
    ⟨"s06", "fs.R101.outlet", "fs.PROD.inlet"⟩ ]

/-- State variables of every stream of this property package: total molar
flow, temperature, pressure, and the five component mole fractions. -/
def stateVarNames : List String :=
  [ "flow_mol", "temperature", "pressure",
    "mole_frac_comp[CH4]", "mole_frac_comp[H2O]", "mole_frac_comp[H2]",
    "mole_frac_comp[CO]", "mole_frac_comp[CO2]" ]

/-- Equality constraint between two named variables. -/
structure EqCon where
  lhs : String
  rhs : String
  deriving DecidableEq, Repr

/-- Modelled from the spec: Pyomo's `network.expand_arcs` transformation (not
part of this repository) expands a declared arc into equality constraints
between the connected ports, one per state variable. -/
def expandArc (a : ArcDecl) : List EqCon :=
  stateVarNames.map (fun v => ⟨a.src ++ "." ++ v, a.dst ++ "." ++ v⟩)

/-- Equality constraints produced by expanding a list of arcs. -/
def expandAllArcs (l : List ArcDecl) : List EqCon :=
  (l.map expandArc).flatten

/-- Python `assert`: succeeds on `true`, raises `AssertionError` (halting the
script) otherwise. -/
def pythonAssert (b : Bool) : Except String Unit :=
  if b then .ok () else .error "AssertionError"

/-- The notebook's post-solve check
`assert results.solver.termination_condition == TerminationCondition.optimal`. -/
def checkSolverStatus (tc : TermCond) : Except String Unit :=
  pythonAssert (tc == TermCond.optimal)

/-- Check that every `solve` statement is immediately followed by a
termination-condition assertion. -/
def solvesFollowedByAssert : List Stmt → Bool
  | [] => true
  | .solve :: .assertTerminationOptimal :: rest => solvesFollowedByAssert rest
  | .solve :: _ => false
  | _ :: rest => solvesFollowedByAssert rest

/-- Number of solver invocations in a script. -/
def countSolves (l : List Stmt) : Nat :=
  l.countP (fun s => decide (s = Stmt.solve))

/-- Number of `try/except` handlers in a script. -/
def countTryBlocks (l : List Stmt) : Nat :=
  l.countP (fun s => decide (s = Stmt.tryBlock))

/-- Names of the variables a script unfixes, in order. -/
def unfixedNames (l : List Stmt) : List String :=
  l.filterMap (fun s => match s with | .unfix n => some n | _ => none)

/-- Values passed to `setlb` on variable `n`, in order. -/
def setlbValsOn (n : String) (l : List Stmt) : List ℚ :=
  l.filterMap (fun s => match s with
    | .setlb m v => if m == n then some v else none
    | _ => none)

/-- Values passed to `setub` on variable `n`, in order. -/
def setubValsOn (n : String) (l : List Stmt) : List ℚ :=
  l.filterMap (fun s => match s with
    | .setub m v => if m == n then some v else none
    | _ => none)

/-- Optimal compressor outlet pressure asserted by the notebook's final test
cell, in MPa: `value(m.fs.C101.outlet.pressure[0]) / 1e6 ≈ 1.000`. -/
def assertedOptC101PressureMPa : ℚ := 1.000

/-- C1: the degrees of freedom of the flowsheet equal 20 after all unit
models and arcs are constructed and expanded, with no variable yet fixed;
equal 0 after fixing the two feed streams (temperature, pressure, molar flow
and five mole fractions each), the compressor outlet pressure and isentropic
efficiency, the heater outlet temperature, and the reactor conversion; and
equal 2 after the conversion is re-fixed at 0.90 and the compressor outlet
pressure and heater outlet temperature are unfixed. -/
theorem C1_degrees_of_freedom :
    dof (runScript initState stageConstruct) = 20 ∧
    (runScript initState stageConstruct).fixedVals = [] ∧
    dof (runScript initState (stageConstruct ++ stageFix)) = 0 ∧
    dof stateBeforeOptSolve = 2 := by
  decide

/-- C4: the optimization stage unfixes exactly the compressor outlet pressure
and the heater outlet temperature (the script unfixes nothing else anywhere),
declares a single objective minimizing `m.fs.operating_cost`, holds the
reactor conversion fixed at 0.90, and leaves the model passed to the second
solve with exactly 2 degrees of freedom. -/
theorem C4_optimization_relaxation :
    unfixedNames fullScript =
      ["fs.C101.outlet.pressure", "fs.H101.outlet.temperature"] ∧
    finalState.objectives = [("fs.operating_cost", ObjSense.minimize)] ∧
    List.lookup "fs.R101.conversion" stateBeforeOptSolve.fixedVals = some 0.9 ∧
    dof stateBeforeOptSolve = 2 := by
  exact ⟨by decide, by decide, rfl, by decide⟩

/-- C5: the script's only error handling is assertion-based: it contains
exactly two solver invocations, each immediately followed by an assertion
that the termination condition is `optimal`, it contains no `try/except`
handler, the assertion succeeds on `optimal`, and raises `AssertionError` on
every other termination condition. -/
theorem C5_assertion_error_handling :
    countSolves fullScript = 2 ∧
    solvesFollowedByAssert fullScript = true ∧
    countTryBlocks fullScript = 0 ∧
    checkSolverStatus TermCond.optimal = Except.ok () ∧
    (∀ tc : TermCond, tc ≠ TermCond.optimal →
      checkSolverStatus tc = Except.error "AssertionError") := by
  refine ⟨by decide, by decide, by decide, rfl, ?_⟩
  intro tc h
  cases tc <;> simp_all [checkSolverStatus, pythonAssert]

/-- Witness for C5 at the concrete termination condition `infeasible`. -/
theorem C5_assertion_error_handling_witness :
    TermCond.infeasible ≠ TermCond.optimal ∧
    checkSolverStatus TermCond.infeasible = Except.error "AssertionError" :=
  ⟨by decide,
   C5_assertion_error_handling.2.2.2.2 TermCond.infeasible (by decide)⟩

/-- C6: the flowsheet is connected by exactly six arcs — CH4 feed and H2O
feed into the two mixer inlets, mixer to compressor, compressor to heater,
heater to Gibbs reactor, reactor to product — and expanding the arcs yields,
for every arc and every stream state variable, an equality constraint
between the source port's and destination port's copy of that variable. -/
theorem C6_flowsheet_topology :
    flowsheetArcs =
      [ ⟨"s01", "fs.CH4.outlet", "fs.M101.methane_feed"⟩,
        ⟨"s02", "fs.H2O.outlet", "fs.M101.steam_feed"⟩,
        ⟨"s03", "fs.M101.outlet", "fs.C101.inlet"⟩,
        ⟨"s04", "fs.C101.outlet", "fs.H101.inlet"⟩,
        ⟨"s05", "fs.H101.outlet", "fs.R101.inlet"⟩,
        ⟨"s06", "fs.R101.outlet", "fs.PROD.inlet"⟩ ] ∧
    flowsheetArcs.length = 6 ∧
    (expandAllArcs flowsheetArcs).length = 48 ∧
    (∀ a ∈ flowsheetArcs, ∀ v ∈ stateVarNames,
      EqCon.mk (a.src ++ "." ++ v) (a.dst ++ "." ++ v) ∈
        expandAllArcs flowsheetArcs) := by
  decide

/-- Witness for C6 at arc `s04` and state variable `temperature`. -/
theorem C6_flowsheet_topology_witness :
    (⟨"s04", "fs.C101.outlet", "fs.H101.inlet"⟩ : ArcDecl) ∈ flowsheetArcs ∧
    "temperature" ∈ stateVarNames ∧
    EqCon.mk ("fs.C101.outlet" ++ "." ++ "temperature")
        ("fs.H101.inlet" ++ "." ++ "temperature") ∈
      expandAllArcs flowsheetArcs :=
  ⟨by decide, by decide,
   C6_flowsheet_topology.2.2.2 ⟨"s04", "fs.C101.outlet", "fs.H101.inlet"⟩
     (by decide) "temperature" (by decide)⟩

/-- C7: the conversion variable is bounded in [0, 1], and its defining
constraint is equivalent, whenever the inlet CH4 molar flow `F_in * x_in` is
nonzero, to the conversion being the fraction of inlet CH4 molar flow that
does not leave the reactor. -/
theorem C7_conversion_definition :
    List.lookup "fs.R101.conversion" finalState.lbs = some 0 ∧
    List.lookup "fs.R101.conversion" finalState.ubs = some 1 ∧
    (∀ c fIn xIn fOut xOut : ℚ, fIn * xIn ≠ 0 →
      (conv_constraint c fIn xIn fOut xOut ↔
        c = (fIn * xIn - fOut * xOut) / (fIn * xIn))) := by
  refine ⟨by decide, by decide, ?_⟩
  intro c fIn xIn fOut xOut h
  unfold conv_constraint
  rw [eq_div_iff h, ← mul_assoc]

/-- Witness for C7 at `F_in = 2`, `x_in = 1/2`, `F_out = 1`, `x_out = 1/5`. -/
theorem C7_conversion_definition_witness :
    ((2 : ℚ) * (1 / 2) ≠ 0) ∧
    (conv_constraint (4 / 5) 2 (1 / 2) 1 (1 / 5) ↔
      (4 / 5 : ℚ) = (2 * (1 / 2) - 1 * (1 / 5)) / (2 * (1 / 2))) :=
  ⟨by norm_num,
   C7_conversion_definition.2.2 (4 / 5) 2 (1 / 2) 1 (1 / 5) (by norm_num)⟩

/-- C8: the script calls `setlb` on the compressor outlet pressure exactly
twice (1 bar = 1e5 Pa, then 10 bar = 1e6 Pa) and never calls `setub` on it,
so after the script its notebook-level bounds are a lower bound of 1e6 Pa
and no upper bound, and the asserted optimal pressure of 1.000 MPa equals
that lower bound exactly. -/
theorem C8_compressor_pressure_bounds :
    setlbValsOn "fs.C101.outlet.pressure" fullScript = [100000, 1000000] ∧
    setubValsOn "fs.C101.outlet.pressure" fullScript = [] ∧
    List.lookup "fs.C101.outlet.pressure" finalState.lbs = some 1000000 ∧
    List.lookup "fs.C101.outlet.pressure" finalState.ubs = none ∧
    List.lookup "fs.C101.outlet.pressure" finalState.lbs =
      some (assertedOptC101PressureMPa * 1000000) := by
  have h : assertedOptC101PressureMPa * 1000000 = (1000000 : ℚ) := by
    norm_num [assertedOptC101PressureMPa]
  refine ⟨rfl, rfl, rfl, rfl, ?_⟩
  rw [h]
  rfl

/-- C9: the operating cost is the fixed linear expression
`3600 * 8000 * (2.2e-7 * H101 duty + 0.212e-7 * R101 duty + 0.12e-5 * C101
work)`, hydrogen production is the PROD inlet molar flow times H2 mole
fraction times H2 molecular weight converted from kg/s to MM lb/year, and
`Expression` declarations leave the degrees of freedom unchanged. -/
theorem C9_cost_and_production_expressions :
    (∀ hH hR w : ℚ,
      operating_cost hH hR w =
        3600 * 8000 * (2.2e-7 * hH + 0.212e-7 * hR + 0.12e-5 * w)) ∧
    (∀ flowMol xH2 mwH2 : ℚ,
      hyd_prod flowMol xH2 mwH2 =
        flowMol * xH2 * mwH2 * (secPerYr / kgPerLb / 1000000)) ∧
    (∀ (s : FsState) (n : String),
      dof (stepStmt s (Stmt.addExpression n)) = dof s) ∧
    dof (runScript initState stageUnitsArcs) =
      dof (runScript initState stageConstruct) := by
  exact ⟨fun _ _ _ => rfl, fun _ _ _ => rfl, fun _ _ => rfl, by decide⟩

end Gibbs
